import Mathlib

/-!
Verification of the Cerebras CLI inference client
(`scripts/cerebras_client.py`) against its natural-language specification.

The Python module is shallowly embedded: every function below is a direct
transcription of the corresponding Python code.  Python optional-string
parameters become `Option String` (with `none` for Python `None`),
Python truthiness of strings (`if s:`) becomes `pyTruthy`, the process
environment becomes an explicit `Env` record holding the two variables the
code reads, and the optional config file becomes `Option (List String)`
(`none` when `os.path.exists` is false, otherwise the file's lines).
Exceptions become `Except`.  The standard-library pieces the code relies on
(`str.strip`, `str.lower`, `str.split("=", 1)`, `json.loads`, dict/list
subscripting) are modelled next to the code that uses them, with Python's
semantics (e.g. dict lookup where a later duplicate key wins, as in
`json.loads`, and the distinct exception classes raised by subscripting).
-/

/-! ### Python string primitives -/

/-- The characters stripped by Python `str.strip()` (ASCII whitespace;
the code never feeds it exotic Unicode spaces). -/
def isPySpace (c : Char) : Bool :=
  c = ' ' || c = '\t' || c = '\n' || c = '\r' || c = '\x0b' || c = '\x0c'

/-- Drop characters satisfying `p` from both ends of a character list. -/
def stripWhile (p : Char → Bool) (cs : List Char) : List Char :=
  ((cs.dropWhile p).reverse.dropWhile p).reverse

/-- Python `s.strip()`. -/
def pyStrip (s : String) : String := ⟨stripWhile isPySpace s.data⟩

/-- The quote characters stripped by `value.strip('\x22\x27')` in the
config-file loop. -/
def isQuoteChar (c : Char) : Bool := c = '"' || c = '\''

/-- Python `s.strip('\x22\x27')`: strip double and single quotes from both
ends. -/
def stripQuotes (s : String) : String := ⟨stripWhile isQuoteChar s.data⟩

/-- Python `s.lower()` (ASCII; the config keys involved are ASCII). -/
def pyLower (s : String) : String := ⟨s.data.map Char.toLower⟩

/-- Python `s.split("=", 1)` when `"=" in s`: split at the first `=`.
Returns `none` when the separator is absent (the caller guards on
`"=" in line`, so `none` corresponds to the guard failing). -/
def splitEq : List Char → Option (List Char × List Char)
  | [] => none
  | c :: cs =>
    if c = '=' then some ([], cs)
    else (splitEq cs).map (fun p => (c :: p.1, p.2))

/-- Python `s.startswith(pre)`. -/
def pyStartsWith (s pre : String) : Bool := pre.data.isPrefixOf s.data

/-- Python truthiness of an optional string: `None` and `""` are falsy. -/
def pyTruthy : Option String → Bool
  | none => false
  | some s => s ≠ ""

/-- Python `a or b` on two optional strings (returns `b` as-is when `a`
is falsy). -/
def pyOrOpt (a b : Option String) : Option String :=
  if pyTruthy a then a else b

/-- Python `a or b` where `b` is a (non-`None`) string. -/
def pyOrStr (a : Option String) (b : String) : String :=
  match a with
  | some s => if s = "" then b else s
  | none => b

/-! ### Config loader (`get_config`, lines 21–44) -/

/-- The process environment as read by the module: the two variables
`CEREBRAS_API_KEY` and `CEREBRAS_MODEL` (`none` = unset). -/
structure Env where
  cerebras_api_key : Option String
  cerebras_model : Option String
deriving Repr, DecidableEq

/-- The resolved configuration record built by `get_config`. -/
structure Config where
  api_key : Option String
  model : String
  base_url : String
deriving Repr, DecidableEq

/-- The built-in default model (line 25). -/
def defaultModel : String := "zai-glm-4.7"

/-- The fixed base URL (line 26). -/
def cerebrasBaseUrl : String := "https://api.cerebras.ai/v1"

/-- One iteration of the config-file loop, parsing phase (lines 34–38):
strip the line; if it contains `=` and does not start with `#`, split at
the first `=`, lower-case and strip the key, strip and unquote the value.
Returns `none` when the line is skipped by the guard. -/
def parseConfigLine (raw : String) : Option (String × String) :=
  let line := pyStrip raw
  match splitEq line.data with
  | none => none
  | some (k, v) =>
    if pyStartsWith line ("#") then none
    else some (pyLower (pyStrip ⟨k⟩), stripQuotes (pyStrip ⟨v⟩))

/-- One iteration of the config-file loop, update phase (lines 39–42):
`cerebras_api_key` fills `api_key` only when it is still falsy;
`cerebras_model` overrides `model` unconditionally. -/
def applyConfigLine (c : Config) (raw : String) : Config :=
  match parseConfigLine raw with
  | none => c
  | some (key, value) =>
    if key = "cerebras_api_key" && !(pyTruthy c.api_key) then
      { c with api_key := some value }
    else if key = "cerebras_model" then
      { c with model := value }
    else c

/-- `get_config()` (lines 21–44): seed from the environment, then fold the
config file's lines over it when the file exists. -/
def get_config (env : Env) (file : Option (List String)) : Config :=
  let config : Config :=
    { api_key := env.cerebras_api_key
      model := env.cerebras_model.getD defaultModel
      base_url := cerebrasBaseUrl }
  match file with
  | none => config
  | some lines => lines.foldl applyConfigLine config

/-! ### Client construction (`CerebrasClient.__init__`, lines 58–65) -/

/-- The client state fixed at construction. -/
structure CerebrasClient where
  api_key : String
  model : String
  base_url : String
deriving Repr, DecidableEq

/-- The message of the `ValueError` raised when no API key resolves
(line 65). -/
def missingKeyMessage : String :=
  "CEREBRAS_API_KEY not set. Export it or add to ~/.config/cerebras/config"

/-- `CerebrasClient.__init__(api_key=None, model=None)` (lines 58–65):
resolve `api_key or config[...]` and `model or config[...]`, then raise
`ValueError` when the resolved key is falsy.  No network I/O occurs here:
the HTTP session is created only inside `chat`/`stream`. -/
def CerebrasClient.init (api_key mdl : Option String) (env : Env)
    (file : Option (List String)) : Except String CerebrasClient :=
  let config := get_config env file
  let k := pyOrOpt api_key config.api_key
  let m := pyOrStr mdl config.model
  match k with
  | some s =>
    if s = "" then .error missingKeyMessage
    else .ok { api_key := s, model := m, base_url := config.base_url }
  | none => .error missingKeyMessage

/-! ### JSON values and `json.loads`

The module parses streaming frames and response bodies with `json.loads`.
We embed the accepted grammar: RFC 8259 JSON plus Python's default
extensions `NaN`, `Infinity` and `-Infinity`.  Numeric tokens are kept
verbatim (the client never computes with them), object members are kept in
textual order and looked up with Python-dict semantics (a later duplicate
key wins).  A failed parse is `none`, standing for `json.JSONDecodeError`.
-/

inductive JValue where
  | jnull
  | jbool (b : Bool)
  | jnum (tok : String)
  | jstr (s : String)
  | jarr (elems : List JValue)
  | jobj (members : List (String × JValue))

/-- JSON inter-token whitespace. -/
def isJsonWs (c : Char) : Bool := c = ' ' || c = '\t' || c = '\n' || c = '\r'

def jskipWs (cs : List Char) : List Char := cs.dropWhile isJsonWs

def isDigitChar (c : Char) : Bool := '0' ≤ c && c ≤ '9'

/-- The value of one hexadecimal digit (`0-9`, `a-f`, `A-F`), by code
point. -/
def hexDigitVal (c : Char) : Option Nat :=
  let n := c.toNat
  if 48 ≤ n && n ≤ 57 then some (n - 48)
  else if 97 ≤ n && n ≤ 102 then some (n - 87)
  else if 65 ≤ n && n ≤ 70 then some (n - 55)
  else none

/-- The two-character escapes accepted inside JSON strings. -/
def jsonEscape : Char → Option Char
  | '"' => some '"'
  | '\\' => some '\\'
  | '/' => some '/'
  | 'b' => some '\x08'
  | 'f' => some '\x0c'
  | 'n' => some '\n'
  | 'r' => some '\r'
  | 't' => some '\t'
  | _ => none

/-- The value of the four hex digits of a `\uXXXX` escape. -/
def hex4 (a b c d : Char) : Option Nat :=
  match hexDigitVal a, hexDigitVal b, hexDigitVal c, hexDigitVal d with
  | some va, some vb, some vc, some vd => some (va * 4096 + vb * 256 + vc * 16 + vd)
  | _, _, _, _ => none

/-- Body of a JSON string after the opening quote.  Python combines a
high/low `\uXXXX` surrogate pair into one code point; a lone surrogate
(legal for Python, unrepresentable in a Lean `Char`) degrades to `U+0000`
via `Char.ofNat`.  Unescaped control characters are rejected, as by
`json.loads` in its default strict mode.  Fuel-indexed; every step consumes
input, so `|cs| + 1` fuel is ample. -/
def parseJsonStringAux (fuel : Nat) (acc : List Char) (cs : List Char) :
    Option (String × List Char) :=
  match fuel with
  | 0 => none
  | fuel + 1 =>
    match cs with
    | '"' :: rest => some (⟨acc.reverse⟩, rest)
    | '\\' :: 'u' :: a :: b :: c :: d :: rest =>
      match hex4 a b c d with
      | none => none
      | some n =>
        if 0xd800 ≤ n && n < 0xdc00 then
          match rest with
          | '\\' :: 'u' :: e :: f :: g :: h :: rest2 =>
            match hex4 e f g h with
            | some m =>
              if 0xdc00 ≤ m && m < 0xe000 then
                parseJsonStringAux fuel
                  (Char.ofNat (0x10000 + (n - 0xd800) * 0x400 + (m - 0xdc00)) :: acc) rest2
              else parseJsonStringAux fuel (Char.ofNat m :: Char.ofNat n :: acc) rest2
            | none => none
          | _ => parseJsonStringAux fuel (Char.ofNat n :: acc) rest
        else parseJsonStringAux fuel (Char.ofNat n :: acc) rest
    | '\\' :: e :: rest =>
      match jsonEscape e with
      | some ch => parseJsonStringAux fuel (ch :: acc) rest
      | none => none
    | c :: rest =>
      if c.toNat < 0x20 then none else parseJsonStringAux fuel (c :: acc) rest
    | [] => none

/-- A whole JSON string body, after the opening quote. -/
def parseJsonString (cs : List Char) : Option (String × List Char) :=
  parseJsonStringAux (cs.length + 1) [] cs

def takeDigits : List Char → List Char × List Char
  | c :: cs =>
    if isDigitChar c then
      let p := takeDigits cs
      (c :: p.1, p.2)
    else ([], c :: cs)
  | [] => ([], [])

/-- A JSON number token: `-? (0 | [1-9][0-9]*) frac? exp?`, returned
verbatim. -/
def parseJsonNumber (cs : List Char) : Option (String × List Char) :=
  let (sgn, cs1) : List Char × List Char :=
    match cs with
    | '-' :: r => (['-'], r)
    | _ => ([], cs)
  match cs1 with
  | [] => none
  | c :: r =>
    if !(isDigitChar c) then none
    else
      let (intPart, cs2) : List Char × List Char :=
        if c = '0' then (['0'], r)
        else
          let p := takeDigits r
          (c :: p.1, p.2)
      let (fracPart, cs3) : List Char × List Char :=
        match cs2 with
        | '.' :: r2 =>
          let p := takeDigits r2
          if p.1.isEmpty then ([], cs2) else ('.' :: p.1, p.2)
        | _ => ([], cs2)
      match cs3 with
      | 'e' :: r3 =>
        let (es, r4) : List Char × List Char :=
          match r3 with
          | '+' :: r' => (['e', '+'], r')
          | '-' :: r' => (['e', '-'], r')
          | _ => (['e'], r3)
        let p := takeDigits r4
        if p.1.isEmpty then some (⟨sgn ++ intPart ++ fracPart⟩, cs3)
        else some (⟨sgn ++ intPart ++ fracPart ++ es ++ p.1⟩, p.2)
      | 'E' :: r3 =>
        let (es, r4) : List Char × List Char :=
          match r3 with
          | '+' :: r' => (['E', '+'], r')
          | '-' :: r' => (['E', '-'], r')
          | _ => (['E'], r3)
        let p := takeDigits r4
        if p.1.isEmpty then some (⟨sgn ++ intPart ++ fracPart⟩, cs3)
        else some (⟨sgn ++ intPart ++ fracPart ++ es ++ p.1⟩, p.2)
      | _ => some (⟨sgn ++ intPart ++ fracPart⟩, cs3)

mutual

/-- One JSON value (fuel-indexed; the caller supplies ample fuel). -/
def parseJsonValue (fuel : Nat) (cs : List Char) : Option (JValue × List Char) :=
  match fuel with
  | 0 => none
  | fuel + 1 =>
    match jskipWs cs with
    | 'n' :: 'u' :: 'l' :: 'l' :: r => some (.jnull, r)
    | 't' :: 'r' :: 'u' :: 'e' :: r => some (.jbool true, r)
    | 'f' :: 'a' :: 'l' :: 's' :: 'e' :: r => some (.jbool false, r)
    | 'N' :: 'a' :: 'N' :: r => some (.jnum ("NaN"), r)
    | 'I' :: 'n' :: 'f' :: 'i' :: 'n' :: 'i' :: 't' :: 'y' :: r =>
      some (.jnum ("Infinity"), r)
    | '-' :: 'I' :: 'n' :: 'f' :: 'i' :: 'n' :: 'i' :: 't' :: 'y' :: r =>
      some (.jnum ("-Infinity"), r)
    | '"' :: r =>
      match parseJsonString r with
      | some (s, r') => some (.jstr s, r')
      | none => none
    | '[' :: r =>
      match jskipWs r with
      | ']' :: r' => some (.jarr [], r')
      | other => parseJsonElems fuel other |>.map (fun p => (.jarr p.1, p.2))
    | '{' :: r =>
      match jskipWs r with
      | '}' :: r' => some (.jobj [], r')
      | other => parseJsonMembers fuel other |>.map (fun p => (.jobj p.1, p.2))
    | c :: rest =>
      if c = '-' || isDigitChar c then
        parseJsonNumber (c :: rest) |>.map (fun p => (.jnum p.1, p.2))
      else none
    | [] => none

/-- One-or-more comma-separated array elements, then `]`. -/
def parseJsonElems (fuel : Nat) (cs : List Char) : Option (List JValue × List Char) :=
  match fuel with
  | 0 => none
  | fuel + 1 =>
    match parseJsonValue fuel cs with
    | none => none
    | some (v, r) =>
      match jskipWs r with
      | ',' :: r' =>
        parseJsonElems fuel r' |>.map (fun p => (v :: p.1, p.2))
      | ']' :: r' => some ([v], r')
      | _ => none

/-- One-or-more `"key": value` object members, then `}`. -/
def parseJsonMembers (fuel : Nat) (cs : List Char) :
    Option (List (String × JValue) × List Char) :=
  match fuel with
  | 0 => none
  | fuel + 1 =>
    match jskipWs cs with
    | '"' :: r =>
      match parseJsonString r with
      | none => none
      | some (key, r1) =>
        match jskipWs r1 with
        | ':' :: r2 =>
          match parseJsonValue fuel r2 with
          | none => none
          | some (v, r3) =>
            match jskipWs r3 with
            | ',' :: r4 =>
              parseJsonMembers fuel r4 |>.map (fun p => ((key, v) :: p.1, p.2))
            | '}' :: r4 => some ([(key, v)], r4)
            | _ => none
        | _ => none
    | _ => none

end

/-- `json.loads`: parse one value, allow trailing whitespace, reject any
other trailing data.  `none` stands for `json.JSONDecodeError`.  The fuel
`2·|s| + 8` is ample: every recursive call consumes input. -/
def json_loads (s : String) : Option JValue :=
  match parseJsonValue (2 * s.data.length + 8) s.data with
  | some (v, rest) => if (jskipWs rest).isEmpty then some v else none
  | none => none

/-! ### Python subscripting and membership on decoded JSON values -/

/-- The Python exceptions the client's response handling can raise (besides
the explicit `Exception` for a non-200 status).  `jsonDecodeError` is the
only one the streaming loop catches. -/
inductive PyErr where
  | keyError (k : String)
  | keyErrorInt (i : Nat)
  | indexError
  | typeError
  | attributeError
  | jsonDecodeError
deriving Repr, DecidableEq

/-- Python-dict lookup over the members list: a later duplicate key wins
(as in the dict `json.loads` builds). -/
def jlookup (members : List (String × JValue)) (k : String) : Option JValue :=
  members.foldl (fun acc p => if p.1 = k then some p.2 else acc) none

/-- Python `x[k]` for a string key `k`: dict lookup (`KeyError` when
missing); every non-dict value raises `TypeError`. -/
def jsubKey (v : JValue) (k : String) : Except PyErr JValue :=
  match v with
  | .jobj ms =>
    match jlookup ms k with
    | some w => .ok w
    | none => .error (.keyError k)
  | _ => .error .typeError

/-- Python `x[0]`: list indexing (`IndexError` when empty), string indexing
(a one-character string), dict lookup with the integer key `0` (always
`KeyError`, since JSON object keys are strings), `TypeError` otherwise. -/
def jsubZero (v : JValue) : Except PyErr JValue :=
  match v with
  | .jarr es =>
    match es.head? with
    | some w => .ok w
    | none => .error .indexError
  | .jobj _ => .error (.keyErrorInt 0)
  | .jstr s =>
    match s.data.head? with
    | some c => .ok (.jstr ⟨[c]⟩)
    | none => .error .indexError
  | _ => .error .typeError

/-- Python `x.get(k, d)`: only dicts have `.get`; anything else raises
`AttributeError`. -/
def jgetDefault (v : JValue) (k : String) (d : JValue) : Except PyErr JValue :=
  match v with
  | .jobj ms => .ok ((jlookup ms k).getD d)
  | _ => .error .attributeError

/-- Python string equality `x == k` between a decoded JSON value and the
string `k` (non-strings compare unequal). -/
def jeqStr (v : JValue) (k : String) : Bool :=
  match v with
  | .jstr s => s = k
  | _ => false

/-- Substring test on character lists (Python `k in s` for strings). -/
def containsSub (needle : List Char) : List Char → Bool
  | [] => needle.isEmpty
  | c :: cs => needle.isPrefixOf (c :: cs) || containsSub needle cs

/-- Python `k in x` for a string `k`: key test on dicts, substring test on
strings, element test on lists; `TypeError` on the remaining values. -/
def jcontains (v : JValue) (k : String) : Except PyErr Bool :=
  match v with
  | .jobj ms => .ok (jlookup ms k).isSome
  | .jstr s => .ok (containsSub k.data s.data)
  | .jarr es => .ok (es.any (fun e => jeqStr e k))
  | _ => .error .typeError

/-! ### The blocking chat path (`CerebrasClient.chat`, lines 89–112) -/

/-- An HTTP response as the client observes it: the status code and the
body text (`await resp.text()` / the input to `await resp.json()`). -/
structure HttpResponse where
  status : Nat
  body : String

/-- What the blocking `chat` call can raise: the explicit
`Exception(f"Cerebras API error ...")` for a non-200 status, or an uncaught
Python exception from decoding/subscripting the success body. -/
inductive ChatErr where
  | apiError (msg : String)
  | pyError (e : PyErr)

/-- The response-side behaviour of `CerebrasClient.chat` (lines 107–112),
given the HTTP response: on a non-200 status raise
`Exception(f"Cerebras API error {status}: {body}")`; otherwise decode the
body as JSON and return `data["choices"][0]["message"]["content"]`. -/
def CerebrasClient.chat (resp : HttpResponse) : Except ChatErr JValue :=
  if resp.status ≠ 200 then
    .error (.apiError ("Cerebras API error " ++ toString resp.status ++ ": " ++ resp.body))
  else
    match json_loads resp.body with
    | none => .error (.pyError .jsonDecodeError)
    | some data =>
      match jsubKey data ("choices") with
      | .error e => .error (.pyError e)
      | .ok choices =>
        match jsubZero choices with
        | .error e => .error (.pyError e)
        | .ok c0 =>
          match jsubKey c0 ("message") with
          | .error e => .error (.pyError e)
          | .ok msg =>
            match jsubKey msg ("content") with
            | .error e => .error (.pyError e)
            | .ok content => .ok content

/-! ### The streaming path (`CerebrasClient.stream`, lines 143–152) -/

/-- The effect of one iteration of the streaming loop on one line of the
response body: emit a fragment, fall through to the next line, or raise an
uncaught exception (ending the generator). -/
inductive LineOut where
  | emit (v : JValue)
  | skipLine
  | raised (e : PyErr)

/-- Lines 144–152, for one decoded body line: strip it; act only on lines
that start with `data: ` and are not the literal `data: [DONE]`; decode
`line[6:]` as JSON, where a `json.JSONDecodeError` is caught and the line
skipped; then evaluate `data["choices"][0].get("delta", {})` — whose
subscripting errors are NOT caught — and yield `delta["content"]` when
present. -/
def processStrippedLine (line : String) : LineOut :=
  if pyStartsWith line ("data: ") && line ≠ "data: [DONE]" then
    match json_loads ⟨line.data.drop 6⟩ with
    | none => .skipLine
    | some data =>
      match jsubKey data ("choices") with
      | .error e => .raised e
      | .ok choices =>
        match jsubZero choices with
        | .error e => .raised e
        | .ok c0 =>
          match jgetDefault c0 ("delta") (.jobj []) with
          | .error e => .raised e
          | .ok delta =>
            match jcontains delta ("content") with
            | .error e => .raised e
            | .ok b =>
              if b then
                match jsubKey delta ("content") with
                | .error e => .raised e
                | .ok frag => .emit frag
              else .skipLine
  else .skipLine

/-- One loop iteration on the raw body line: `line.decode().strip()`, then
the frame handling above. -/
def processStreamLine (raw : String) : LineOut :=
  processStrippedLine (pyStrip raw)

/-- The whole streaming loop over the response-body lines: the fragments
yielded in order, and the uncaught exception that ended the generator
early, if any. -/
def streamRun : List String → List JValue × Option PyErr
  | [] => ([], none)
  | l :: ls =>
    match processStreamLine l with
    | .emit v =>
      let r := streamRun ls
      (v :: r.1, r.2)
    | .skipLine => streamRun ls
    | .raised e => ([], some e)

/-! ### `complete` (lines 74–87) and `code` (lines 154–169) -/

inductive Role where
  | system
  | user
  | assistant
deriving Repr, DecidableEq

structure Message where
  role : Role
  content : String
deriving Repr, DecidableEq

/-- The arguments `complete` passes to `chat` (lines 82–87). -/
structure ChatCall where
  messages : List Message
  max_tokens : Nat
  temperature : ℚ
deriving Repr, DecidableEq

/-- `CerebrasClient.complete(prompt, system=None, max_tokens=4096,
temperature=0.7)` builds `messages` — the system message first, appended
only when `system` is truthy, then the user message — and delegates them to
`chat` unchanged (lines 82–87). -/
def CerebrasClient.complete (prompt : String) (system : Option String)
    (max_tokens : Nat) (temperature : ℚ) : ChatCall :=
  let messages : List Message :=
    (match system with
     | some s => if s = "" then [] else [{ role := Role.system, content := s }]
     | none => []) ++ [{ role := Role.user, content := prompt }]
  { messages := messages, max_tokens := max_tokens, temperature := temperature }

/-- The arguments `code` passes to `complete` (line 169); `max_tokens`
takes `complete`'s default 4096. -/
structure CompleteCall where
  prompt : String
  system : Option String
  max_tokens : Nat
  temperature : ℚ
deriving Repr, DecidableEq

/-- The system instruction built by `code` (lines 161–163), with the
language interpolated and the trailing space of the first line kept. -/
def codeSystem (language : String) : String :=
  "You are an expert "
    ++ (language
      ++ " programmer. \nOutput only code, no explanations unless asked.\nFollow best practices and include error handling.")

/-- The prompt built by `code` (lines 165–167): the task alone, or the
context in a fenced block ahead of it when `context` is truthy. -/
def codePrompt (task : String) (context : Option String) : String :=
  match context with
  | some c =>
    if c = "" then task
    else "Context:\n```\n" ++ (c ++ ("\n```\n\nTask: " ++ task))
  | none => task

/-- `CerebrasClient.code(task, context=None, language="python")`
(lines 154–169): delegates to `complete` with the built system
instruction and prompt, default `max_tokens`, and temperature 0.3. -/
def CerebrasClient.code (task : String) (context : Option String)
    (language : String) : CompleteCall :=
  { prompt := codePrompt task context
    system := some (codeSystem language)
    max_tokens := 4096
    temperature := 3 / 10 }

/-! ### Helper lemmas on the config-file fold -/

/-- A truthy `api_key` is never overwritten by a config-file line. -/
theorem applyConfigLine_api_key_of_truthy (c : Config) (raw : String)
    (h : pyTruthy c.api_key = true) :
    (applyConfigLine c raw).api_key = c.api_key := by
  unfold applyConfigLine
  cases hp : parseConfigLine raw with
  | none => rfl
  | some kv =>
    simp only [h]
    split
    · simp_all
    · split <;> rfl

/-- A truthy `api_key` survives the whole config-file fold. -/
theorem foldl_api_key_of_truthy (lines : List String) :
    ∀ c : Config, pyTruthy c.api_key = true →
      (lines.foldl applyConfigLine c).api_key = c.api_key := by
  induction lines with
  | nil => intro c _; rfl
  | cons l ls ih =>
    intro c h
    have h1 := applyConfigLine_api_key_of_truthy c l h
    have h2 : pyTruthy (applyConfigLine c l).api_key = true := by rw [h1]; exact h
    calc (List.foldl applyConfigLine (applyConfigLine c l) ls).api_key
        = (applyConfigLine c l).api_key := ih _ h2
      _ = c.api_key := h1

/-- A config file with no `cerebras_api_key` line leaves `api_key`
untouched. -/
theorem applyConfigLine_api_key_of_no_key (c : Config) (raw : String)
    (h : ∀ v, parseConfigLine raw ≠ some ("cerebras_api_key", v)) :
    (applyConfigLine c raw).api_key = c.api_key := by
  cases hp : parseConfigLine raw with
  | none => simp [applyConfigLine, hp]
  | some kv =>
    obtain ⟨k, v⟩ := kv
    have hk : k ≠ "cerebras_api_key" := by
      intro hke
      exact h v (by rw [hp, hke])
    simp only [applyConfigLine, hp]
    simp only [hk, decide_False, Bool.false_and, Bool.false_eq_true, if_false]
    split <;> rfl

/-- Fold version of `applyConfigLine_api_key_of_no_key`. -/
theorem foldl_api_key_of_no_key (lines : List String) :
    ∀ c : Config, (∀ l ∈ lines, ∀ v, parseConfigLine l ≠ some ("cerebras_api_key", v)) →
      (lines.foldl applyConfigLine c).api_key = c.api_key := by
  induction lines with
  | nil => intro c _; rfl
  | cons l ls ih =>
    intro c h
    calc (List.foldl applyConfigLine (applyConfigLine c l) ls).api_key
        = (applyConfigLine c l).api_key :=
          ih _ (fun l' hl' => h l' (List.mem_cons_of_mem _ hl'))
      _ = c.api_key := applyConfigLine_api_key_of_no_key c l (h l (List.mem_cons_self _ _))

/-- When every `cerebras_api_key` line of the file carries an empty value,
one fold step keeps `api_key` falsy. -/
theorem applyConfigLine_falsy (c : Config) (raw : String)
    (hv : ∀ v, parseConfigLine raw = some ("cerebras_api_key", v) → v = "")
    (h : pyTruthy c.api_key = false) :
    pyTruthy (applyConfigLine c raw).api_key = false := by
  cases hp : parseConfigLine raw with
  | none => simpa [applyConfigLine, hp] using h
  | some kv =>
    obtain ⟨k, v⟩ := kv
    simp only [applyConfigLine, hp]
    split
    · rename_i hcond
      rw [Bool.and_eq_true, decide_eq_true_eq] at hcond
      have : v = "" := hv v (by rw [hp, hcond.1])
      simp [this, pyTruthy]
    · split
      · simpa using h
      · exact h

/-- Fold version of `applyConfigLine_falsy`. -/
theorem foldl_falsy (lines : List String) :
    ∀ c : Config,
      (∀ l ∈ lines, ∀ v, parseConfigLine l = some ("cerebras_api_key", v) → v = "") →
      pyTruthy c.api_key = false →
      pyTruthy (lines.foldl applyConfigLine c).api_key = false := by
  induction lines with
  | nil => intro c _ h; exact h
  | cons l ls ih =>
    intro c hlines h
    exact ih _ (fun l' hl' => hlines l' (List.mem_cons_of_mem _ hl'))
      (applyConfigLine_falsy c l (hlines l (List.mem_cons_self _ _)) h)

/-- Specification-side view of the file's effect on the model field: the
value of the last `cerebras_model` line, if any. -/
def modelStep (acc : Option String) (raw : String) : Option String :=
  match parseConfigLine raw with
  | some kv => if kv.1 = "cerebras_model" then some kv.2 else acc
  | none => acc

/-- Specification-side view: the last `cerebras_model` value of the file. -/
def fileModelVal (lines : List String) : Option String :=
  lines.foldl modelStep none

/-- The accumulator of the `modelStep` fold only matters when the lines
hold no `cerebras_model` entry. -/
theorem foldl_modelStep_or (lines : List String) :
    ∀ a : Option String, lines.foldl modelStep a = (lines.foldl modelStep none).or a := by
  induction lines with
  | nil => intro a; cases a <;> rfl
  | cons l ls ih =>
    intro a
    show List.foldl modelStep (modelStep a l) ls = (List.foldl modelStep (modelStep none l) ls).or a
    cases hp : parseConfigLine l with
    | none =>
      simp only [modelStep, hp]
      exact ih a
    | some kv =>
      simp only [modelStep, hp]
      split
      · rw [ih (some kv.2)]
        cases List.foldl modelStep none ls <;> rfl
      · exact ih a

/-- One fold step changes the model field exactly as `modelStep` says. -/
theorem applyConfigLine_model (c : Config) (raw : String) :
    (applyConfigLine c raw).model = (modelStep none raw).getD c.model := by
  cases hp : parseConfigLine raw with
  | none => simp [applyConfigLine, modelStep, hp]
  | some kv =>
    obtain ⟨k, v⟩ := kv
    simp only [applyConfigLine, modelStep, hp]
    split
    · rename_i hcond
      rw [Bool.and_eq_true, decide_eq_true_eq] at hcond
      have hkm : k ≠ "cerebras_model" := by
        rw [hcond.1]; decide
      simp [hkm]
    · split
      · rename_i hk
        simp [hk]
      · rename_i hk
        simp [hk]

/-- The whole fold resolves the model field to the file's last
`cerebras_model` value, defaulting to the seed. -/
theorem foldl_model (lines : List String) :
    ∀ c : Config, (lines.foldl applyConfigLine c).model = (fileModelVal lines).getD c.model := by
  induction lines with
  | nil => intro c; rfl
  | cons l ls ih =>
    intro c
    show (List.foldl applyConfigLine (applyConfigLine c l) ls).model
        = (List.foldl modelStep (modelStep none l) ls).getD c.model
    rw [ih, applyConfigLine_model, foldl_modelStep_or ls (modelStep none l)]
    unfold fileModelVal
    cases List.foldl modelStep none ls <;> cases modelStep none l <;> rfl

/-- Agreement of two optional keys up to Python falsiness: equal, or
`some ""` against `none`. -/
def keyFalsyEq (x y : Option String) : Prop :=
  x = y ∨ (x = some "" ∧ y = none)

theorem keyFalsyEq_truthy {x y : Option String} (h : keyFalsyEq x y) :
    pyTruthy x = pyTruthy y := by
  rcases h with h | ⟨h1, h2⟩
  · rw [h]
  · rw [h1, h2]; rfl

/-- One fold step cannot distinguish an empty key from a missing one. -/
theorem applyConfigLine_keyFalsyEq (c d : Config) (raw : String)
    (hk : keyFalsyEq c.api_key d.api_key) (hm : c.model = d.model)
    (hb : c.base_url = d.base_url) :
    keyFalsyEq (applyConfigLine c raw).api_key (applyConfigLine d raw).api_key
    ∧ (applyConfigLine c raw).model = (applyConfigLine d raw).model
    ∧ (applyConfigLine c raw).base_url = (applyConfigLine d raw).base_url := by
  have ht := keyFalsyEq_truthy hk
  cases hp : parseConfigLine raw with
  | none =>
    simp only [applyConfigLine, hp]
    exact ⟨hk, hm, hb⟩
  | some kv =>
    simp only [applyConfigLine, hp, ht]
    split
    · exact ⟨Or.inl rfl, hm, hb⟩
    · split
      · exact ⟨hk, rfl, hb⟩
      · exact ⟨hk, hm, hb⟩

/-- Fold version of `applyConfigLine_keyFalsyEq`. -/
theorem foldl_keyFalsyEq (lines : List String) :
    ∀ c d : Config, keyFalsyEq c.api_key d.api_key → c.model = d.model →
      c.base_url = d.base_url →
      keyFalsyEq (lines.foldl applyConfigLine c).api_key
          (lines.foldl applyConfigLine d).api_key
        ∧ (lines.foldl applyConfigLine c).model = (lines.foldl applyConfigLine d).model
        ∧ (lines.foldl applyConfigLine c).base_url
          = (lines.foldl applyConfigLine d).base_url := by
  induction lines with
  | nil => intro c d hk hm hb; exact ⟨hk, hm, hb⟩
  | cons l ls ih =>
    intro c d hk hm hb
    obtain ⟨hk1, hm1, hb1⟩ := applyConfigLine_keyFalsyEq c d l hk hm hb
    exact ih _ _ hk1 hm1 hb1

/-! ### Helper lemmas on client construction -/

theorem pyOrOpt_none (x : Option String) : pyOrOpt none x = x := rfl

/-- Unfolding view of `CerebrasClient.init` with its lets resolved. -/
theorem init_eq (a mdl : Option String) (env : Env) (file : Option (List String)) :
    CerebrasClient.init a mdl env file =
      match pyOrOpt a (get_config env file).api_key with
      | some s =>
        if s = "" then Except.error missingKeyMessage
        else Except.ok (CerebrasClient.mk s (pyOrStr mdl (get_config env file).model)
            ((get_config env file).base_url))
      | none => Except.error missingKeyMessage := rfl

/-- When the resolved key is falsy, `__init__` raises the `ValueError`. -/
theorem init_of_falsy (a mdl : Option String) (env : Env) (file : Option (List String))
    (h : pyTruthy (pyOrOpt a (get_config env file).api_key) = false) :
    CerebrasClient.init a mdl env file = Except.error missingKeyMessage := by
  rw [init_eq]
  cases hk : pyOrOpt a (get_config env file).api_key with
  | none => rfl
  | some s =>
    rw [hk] at h
    simp only [pyTruthy, decide_not] at h
    have hs : s = "" := by simpa using h
    simp [hs]

/-- When the resolved key is a non-empty string, `__init__` returns the
client record built from it. -/
theorem init_of_key_some (a mdl : Option String) (env : Env) (file : Option (List String))
    (s : String) (hk : pyOrOpt a (get_config env file).api_key = some s) (hs : s ≠ "") :
    CerebrasClient.init a mdl env file
      = Except.ok (CerebrasClient.mk s (pyOrStr mdl (get_config env file).model)
          ((get_config env file).base_url)) := by
  rw [init_eq, hk]
  simp [hs]

/-! ### Claim theorems -/

/-- Claim C4: on the body whose three lines are the two `Hel`/`lo` delta
frames followed by `data: [DONE]`, the stream yields exactly the fragments
`"Hel"` and `"lo"` in that order and then terminates without error. -/
theorem stream_concrete_example :
    streamRun
      [("data: \x7b\"choices\":[\x7b\"delta\":\x7b\"content\":\"Hel\"\x7d\x7d]\x7d"),
       ("data: \x7b\"choices\":[\x7b\"delta\":\x7b\"content\":\"lo\"\x7d\x7d]\x7d"),
       ("data: [DONE]")]
    = ([JValue.jstr ("Hel"), JValue.jstr ("lo")], none) := rfl

/-- Counterexample to claim C2 as stated: the `data: [DONE]` line does not
end the stream — a well-formed frame placed after it still has its fragment
emitted, so fragments can be emitted from lines after `data: [DONE]`. -/
theorem stream_done_not_terminating :
    streamRun [("data: [DONE]"),
      ("data: \x7b\"choices\":[\x7b\"delta\":\x7b\"content\":\"X\"\x7d\x7d]\x7d")]
    = ([JValue.jstr ("X")], none) := rfl

/-- Claim C2 (amended): a body line that strips to `data: [DONE]` yields no
fragment, but it does not terminate the loop: the fragments of the
remaining lines are exactly those of the body without it, and the sequence
ends only when the response body does. -/
theorem stream_done_line_skipped (raw : String) (rest : List String)
    (h : pyStrip raw = "data: [DONE]") :
    processStreamLine raw = LineOut.skipLine
    ∧ streamRun (raw :: rest) = streamRun rest := by
  have h1 : processStreamLine raw = LineOut.skipLine := by
    unfold processStreamLine
    rw [h]
    rfl
  refine ⟨h1, ?_⟩
  show (match processStreamLine raw with
    | LineOut.emit v =>
      let r := streamRun rest
      (v :: r.1, r.2)
    | LineOut.skipLine => streamRun rest
    | LineOut.raised e => ([], some e)) = streamRun rest
  rw [h1]

/-- Witness for `stream_done_line_skipped` at the literal line. -/
theorem stream_done_line_skipped_witness :
    pyStrip ("data: [DONE]") = "data: [DONE]"
    ∧ (processStreamLine ("data: [DONE]") = LineOut.skipLine
      ∧ streamRun [("data: [DONE]")] = streamRun []) :=
  ⟨rfl, stream_done_line_skipped ("data: [DONE]") [] rfl⟩

/-- Counterexample to claim C3 as stated: `data: \x7b\x7d` parses as JSON
successfully but has unexpected shape (no `choices` key), and the loop
raises an uncaught `KeyError` for it rather than skipping it. -/
theorem stream_unexpected_shape_raises :
    processStreamLine ("data: \x7b\x7d") = LineOut.raised (PyErr.keyError ("choices")) := rfl

/-- Claim C3 (amended): a line whose text after stripping fails to parse as
JSON raises nothing — it yields no fragment and the loop continues; and a
parsed frame whose `choices[0]` is an object merely lacking a
`delta`/`content` field likewise yields no fragment without an exception.
(A parsed frame of other unexpected shapes, such as one missing the
`choices` key, raises an uncaught exception.) -/
theorem stream_malformed_line_skipped :
    (∀ raw : String, json_loads ⟨(pyStrip raw).data.drop 6⟩ = none →
        processStreamLine raw = LineOut.skipLine)
    ∧ (∀ (raw : String) (data choices c0 delta : JValue),
        json_loads ⟨(pyStrip raw).data.drop 6⟩ = some data →
        jsubKey data ("choices") = Except.ok choices →
        jsubZero choices = Except.ok c0 →
        jgetDefault c0 ("delta") (JValue.jobj []) = Except.ok delta →
        jcontains delta ("content") = Except.ok false →
        processStreamLine raw = LineOut.skipLine) := by
  constructor
  · intro raw h
    unfold processStreamLine processStrippedLine
    split
    · rw [h]
    · rfl
  · intro raw data choices c0 delta h1 h2 h3 h4 h5
    unfold processStreamLine processStrippedLine
    split
    · simp [h1, h2, h3, h4, h5]
    · rfl

/-- Witness for `stream_malformed_line_skipped`: an invalid-JSON line and a
frame whose `choices[0]` object has an empty delta are both skipped. -/
theorem stream_malformed_line_skipped_witness :
    processStreamLine ("data: not json") = LineOut.skipLine
    ∧ processStreamLine ("data: \x7b\"choices\":[\x7b\"delta\":\x7b\x7d\x7d]\x7d")
      = LineOut.skipLine :=
  ⟨stream_malformed_line_skipped.1 ("data: not json") rfl,
   stream_malformed_line_skipped.2 ("data: \x7b\"choices\":[\x7b\"delta\":\x7b\x7d\x7d]\x7d")
     (JValue.jobj [("choices", JValue.jarr [JValue.jobj [("delta", JValue.jobj [])]])])
     (JValue.jarr [JValue.jobj [("delta", JValue.jobj [])]])
     (JValue.jobj [("delta", JValue.jobj [])])
     (JValue.jobj [])
     rfl rfl rfl rfl rfl⟩

/-- `needle` occurs verbatim inside `hay`. -/
def strSub (needle hay : String) : Prop :=
  ∃ a b : String, hay = a ++ (needle ++ b)

/-- Claim C5: for every non-200 response on the blocking chat path, `chat`
raises the API `Exception` — returning no result — and its message contains
both the decimal status code and the response body verbatim. -/
theorem chat_non200_raises (resp : HttpResponse) (h : resp.status ≠ 200) :
    ∃ msg, CerebrasClient.chat resp = Except.error (ChatErr.apiError msg)
      ∧ strSub (toString resp.status) msg ∧ strSub resp.body msg := by
  refine ⟨"Cerebras API error " ++ toString resp.status ++ ": " ++ resp.body, ?_, ?_, ?_⟩
  · simp [CerebrasClient.chat, h]
  · exact ⟨"Cerebras API error ", ": " ++ resp.body, by
      rw [String.append_assoc, String.append_assoc]⟩
  · refine ⟨"Cerebras API error " ++ toString resp.status ++ ": ", "", ?_⟩
    rw [String.append_empty]

/-- Witness for `chat_non200_raises` at a 401 response. -/
theorem chat_non200_raises_witness :
    (401 ≠ 200)
    ∧ ∃ msg, CerebrasClient.chat ⟨401, "unauthorized"⟩ = Except.error (ChatErr.apiError msg)
      ∧ strSub (toString 401) msg ∧ strSub ("unauthorized") msg :=
  ⟨by decide, chat_non200_raises ⟨401, "unauthorized"⟩ (by decide)⟩

/-- Claim C8: `complete` builds the conversation as the optional system
message followed by the user message and passes exactly that sequence to
`chat`: with a (non-empty) system string the sequence is the system message
then the user message, and with no system argument it is the single user
message.  (A supplied-but-empty system string is falsy in Python and is
treated like an absent one.) -/
theorem complete_builds_conversation (prompt s : String) (hs : s ≠ "")
    (max_tokens : Nat) (temperature : ℚ) :
    (CerebrasClient.complete prompt (some s) max_tokens temperature).messages
        = [Message.mk Role.system s, Message.mk Role.user prompt]
    ∧ (CerebrasClient.complete prompt none max_tokens temperature).messages
        = [Message.mk Role.user prompt] := by
  constructor
  · simp [CerebrasClient.complete, hs]
  · rfl

/-- Witness for `complete_builds_conversation` at the spec's example
`complete("Hi", system="Be terse")`. -/
theorem complete_builds_conversation_witness :
    (CerebrasClient.complete ("Hi") (some ("Be terse")) 4096 (7 / 10)).messages
        = [Message.mk Role.system ("Be terse"), Message.mk Role.user ("Hi")]
    ∧ (CerebrasClient.complete ("Hi") none 4096 (7 / 10)).messages
        = [Message.mk Role.user ("Hi")] :=
  complete_builds_conversation ("Hi") ("Be terse") (by decide) 4096 (7 / 10)

/-- Counterexample to claim C9 as stated: with a supplied empty context,
the prompt is the bare task — no fenced context block is added even though
a context argument was supplied. -/
theorem code_empty_context_no_block :
    (CerebrasClient.code ("t") (some ("")) ("python")).prompt = "t"
    ∧ ("t" : String) ≠ "Context:\n```\n" ++ ("" ++ ("\n```\n\nTask: " ++ "t")) :=
  ⟨rfl, by decide⟩

/-- Claim C9 (amended): `code` embeds the language string literally inside
its fixed system instruction and always calls `complete` with temperature
0.3; the task is prefixed with the context inside a fenced block exactly
when a non-empty context is supplied (a missing — or empty, hence falsy —
context adds no block). -/
theorem code_builds_complete_call (task language ctx : String) (hc : ctx ≠ "") :
    (∀ context : Option String,
        (CerebrasClient.code task context language).system
          = some ("You are an expert "
              ++ (language
                ++ " programmer. \nOutput only code, no explanations unless asked.\nFollow best practices and include error handling."))
        ∧ (CerebrasClient.code task context language).temperature = 3 / 10)
    ∧ (CerebrasClient.code task none language).prompt = task
    ∧ (CerebrasClient.code task (some ctx) language).prompt
        = "Context:\n```\n" ++ (ctx ++ ("\n```\n\nTask: " ++ task)) := by
  refine ⟨fun context => ⟨rfl, rfl⟩, rfl, ?_⟩
  simp [CerebrasClient.code, codePrompt, hc]

/-- Witness for `code_builds_complete_call` at the spec's example
`code("reverse a list", language="Go")` plus a non-empty context. -/
theorem code_builds_complete_call_witness :
    (CerebrasClient.code ("reverse a list") none ("Go")).system
      = some ("You are an expert "
          ++ (("Go")
            ++ " programmer. \nOutput only code, no explanations unless asked.\nFollow best practices and include error handling."))
    ∧ (CerebrasClient.code ("reverse a list") none ("Go")).prompt = "reverse a list"
    ∧ (CerebrasClient.code ("reverse a list") (some ("xs = [1]")) ("Go")).prompt
      = "Context:\n```\n" ++ (("xs = [1]") ++ ("\n```\n\nTask: " ++ "reverse a list")) :=
  ⟨((code_builds_complete_call ("reverse a list") ("Go") ("xs = [1]") (by decide)).1 none).1,
   (code_builds_complete_call ("reverse a list") ("Go") ("xs = [1]") (by decide)).2.1,
   (code_builds_complete_call ("reverse a list") ("Go") ("xs = [1]") (by decide)).2.2⟩

/-- Counterexample to claim C1 as stated: with `CEREBRAS_MODEL=envm` in the
environment and a config file containing `cerebras_model=filem`, the
resolved model is the file value `filem`, not the environment value. -/
theorem model_env_overridden_by_file :
    (get_config ⟨none, some ("envm")⟩ (some ["cerebras_model=filem"])).model = "filem"
    ∧ ("filem" : String) ≠ "envm" :=
  ⟨rfl, by decide⟩

/-- Claim C1 (amended): model resolution is layered with the config file
above the environment — the resolved model is the file's last
`cerebras_model` value when one exists, else the environment value when
set, else the built-in default; an explicit non-empty model argument
overrides all of them (explicit argument > file > environment > default). -/
theorem model_resolution (env : Env) (lines : List String) (api : Option String)
    (mArg : String) (hm : mArg ≠ "") (c : CerebrasClient)
    (hc : CerebrasClient.init api (some mArg) env (some lines) = Except.ok c) :
    (get_config env (some lines)).model
        = ((fileModelVal lines).or env.cerebras_model).getD defaultModel
    ∧ c.model = mArg := by
  constructor
  · show (lines.foldl applyConfigLine
        (Config.mk env.cerebras_api_key (env.cerebras_model.getD defaultModel)
          cerebrasBaseUrl)).model = _
    rw [foldl_model]
    rcases hfm : fileModelVal lines with _ | w <;>
      rcases hem : env.cerebras_model with _ | m <;> rfl
  · rw [init_eq] at hc
    revert hc
    cases pyOrOpt api (get_config env (some lines)).api_key with
    | none =>
      intro hc
      exact Except.noConfusion hc
    | some s =>
      intro hc
      have hred : (if s = "" then (Except.error missingKeyMessage : Except String CerebrasClient)
          else Except.ok (CerebrasClient.mk s
            (pyOrStr (some mArg) (get_config env (some lines)).model)
            ((get_config env (some lines)).base_url))) = Except.ok c := hc
      by_cases hs : s = ""
      · rw [if_pos hs] at hred
        exact Except.noConfusion hred
      · rw [if_neg hs] at hred
        injection hred with h
        rw [← h]
        show pyOrStr (some mArg) (get_config env (some lines)).model = mArg
        simp [pyOrStr, hm]

/-- Witness for `model_resolution`: environment model `envm`, file model
`filem`, explicit argument `mm`, explicit key `k`. -/
theorem model_resolution_witness :
    (get_config ⟨none, some ("envm")⟩ (some ["cerebras_model=filem"])).model
        = ((fileModelVal ["cerebras_model=filem"]).or (some ("envm"))).getD defaultModel
    ∧ (CerebrasClient.mk ("k") ("mm") cerebrasBaseUrl).model = "mm" :=
  model_resolution ⟨none, some ("envm")⟩ ["cerebras_model=filem"] (some ("k")) ("mm")
    (by decide) (CerebrasClient.mk ("k") ("mm") cerebrasBaseUrl) rfl

/-- Claim C6: with `CEREBRAS_API_KEY` unset, a config file with no
`cerebras_api_key` entry, and no explicit override, construction raises the
configuration `ValueError`.  The constructor performs no network I/O at
all (the HTTP session exists only inside `chat`/`stream`), so the error
precedes any network access. -/
theorem init_no_key_fails (mdl mo : Option String) (lines : List String)
    (hfile : ∀ l ∈ lines, ∀ v, parseConfigLine l ≠ some ("cerebras_api_key", v)) :
    CerebrasClient.init none mdl ⟨none, mo⟩ (some lines)
      = Except.error missingKeyMessage := by
  apply init_of_falsy
  rw [pyOrOpt_none]
  have hkey : (get_config ⟨none, mo⟩ (some lines)).api_key = none := by
    show (lines.foldl applyConfigLine
        (Config.mk none (mo.getD defaultModel) cerebrasBaseUrl)).api_key = none
    rw [foldl_api_key_of_no_key lines _ hfile]
  rw [hkey]
  rfl

/-- Witness for `init_no_key_fails` on a file holding only a comment. -/
theorem init_no_key_fails_witness :
    (∀ l ∈ (["# comment"] : List String), ∀ v,
        parseConfigLine l ≠ some ("cerebras_api_key", v))
    ∧ CerebrasClient.init none none ⟨none, none⟩ (some ["# comment"])
      = Except.error missingKeyMessage := by
  have hfile : ∀ l ∈ (["# comment"] : List String), ∀ v,
      parseConfigLine l ≠ some ("cerebras_api_key", v) := by
    intro l hl v h
    rw [List.mem_singleton] at hl
    subst hl
    exact Option.noConfusion h
  exact ⟨hfile, init_no_key_fails none none ["# comment"] hfile⟩

/-- Counterexample to claim C7 as stated: with `CEREBRAS_API_KEY` set to
the empty string (and no config file), construction does not succeed — it
raises the configuration error. -/
theorem env_empty_key_construction_fails :
    CerebrasClient.init none none ⟨some (""), none⟩ none
      = Except.error missingKeyMessage := rfl

/-- Claim C7 (amended): API-key resolution is layered — when
`CEREBRAS_API_KEY` is set to a non-empty value, construction succeeds with
the environment value verbatim regardless of the config file's contents;
when the variable is unset and the config file is
`cerebras_api_key = "abc"`, construction succeeds using `abc` with the
quotes stripped. -/
theorem api_key_layering (v : String) (hv : v ≠ "") (mo mdl mo2 mdl2 : Option String)
    (lines : List String) :
    (∃ c, CerebrasClient.init none mdl ⟨some v, mo⟩ (some lines) = Except.ok c
        ∧ c.api_key = v)
    ∧ (∃ c, CerebrasClient.init none mdl2 ⟨none, mo2⟩
          (some ["cerebras_api_key = \"abc\""]) = Except.ok c ∧ c.api_key = "abc") := by
  constructor
  · have hkey : (get_config ⟨some v, mo⟩ (some lines)).api_key = some v := by
      show (lines.foldl applyConfigLine
          (Config.mk (some v) (mo.getD defaultModel) cerebrasBaseUrl)).api_key = some v
      rw [foldl_api_key_of_truthy lines _ (by simp [pyTruthy, hv])]
    refine ⟨_, init_of_key_some none mdl ⟨some v, mo⟩ (some lines) v ?_ hv, rfl⟩
    rw [pyOrOpt_none, hkey]
  · have hkey2 : (get_config ⟨none, mo2⟩ (some ["cerebras_api_key = \"abc\""])).api_key
        = some ("abc") := rfl
    refine ⟨_, init_of_key_some none mdl2 ⟨none, mo2⟩
        (some ["cerebras_api_key = \"abc\""]) ("abc") ?_ (by decide), rfl⟩
    rw [pyOrOpt_none, hkey2]

/-- Witness for `api_key_layering`: env value `envkey` against a file that
offers a different key, and the spec's `cerebras_api_key = "abc"` file. -/
theorem api_key_layering_witness :
    (∃ c, CerebrasClient.init none none ⟨some ("envkey"), none⟩
        (some ["cerebras_api_key=other"]) = Except.ok c ∧ c.api_key = "envkey")
    ∧ (∃ c, CerebrasClient.init none none ⟨none, none⟩
        (some ["cerebras_api_key = \"abc\""]) = Except.ok c ∧ c.api_key = "abc") :=
  api_key_layering ("envkey") (by decide) none none none none ["cerebras_api_key=other"]

/-- Constructions over two resolved configs that agree up to Python
falsiness of the key (and exactly on the other fields) coincide. -/
theorem init_keyFalsyEq (a mdl : Option String) (env1 env2 : Env)
    (file1 file2 : Option (List String))
    (hk : keyFalsyEq (get_config env1 file1).api_key (get_config env2 file2).api_key)
    (hm : (get_config env1 file1).model = (get_config env2 file2).model)
    (hb : (get_config env1 file1).base_url = (get_config env2 file2).base_url) :
    CerebrasClient.init a mdl env1 file1 = CerebrasClient.init a mdl env2 file2 := by
  rw [init_eq, init_eq]
  by_cases hpa : pyTruthy a = true
  · rw [show pyOrOpt a (get_config env1 file1).api_key = a from by simp [pyOrOpt, hpa],
        show pyOrOpt a (get_config env2 file2).api_key = a from by simp [pyOrOpt, hpa]]
    cases a with
    | none => rfl
    | some s => rw [hm, hb]
  · have hpa' : pyTruthy a = false := by simpa using hpa
    rw [show pyOrOpt a (get_config env1 file1).api_key = (get_config env1 file1).api_key
          from by simp [pyOrOpt, hpa'],
        show pyOrOpt a (get_config env2 file2).api_key = (get_config env2 file2).api_key
          from by simp [pyOrOpt, hpa']]
    rcases hk with hk | ⟨h1, h2⟩
    · rw [hk, hm, hb]
    · rw [h1, h2]
      rfl

/-- Claim C10: an empty-string API key is treated as absent at every
layer — an empty explicit argument behaves like no argument, an empty
`CEREBRAS_API_KEY` behaves like an unset one, and when no layer yields a
non-empty key (falsy explicit argument, unset-or-empty environment key,
and every `cerebras_api_key` file entry empty) construction raises the
configuration error. -/
theorem empty_key_treated_absent (a mdl mo : Option String)
    (file : Option (List String)) (lines : List String) (envK : Option String) :
    (∀ env : Env,
        CerebrasClient.init (some ("")) mdl env file = CerebrasClient.init none mdl env file)
    ∧ (CerebrasClient.init a mdl ⟨some (""), mo⟩ file
        = CerebrasClient.init a mdl ⟨none, mo⟩ file)
    ∧ (pyTruthy a = false → (envK = none ∨ envK = some "") →
        (∀ l ∈ lines, ∀ v, parseConfigLine l = some ("cerebras_api_key", v) → v = "") →
        CerebrasClient.init a mdl ⟨envK, mo⟩ (some lines)
          = Except.error missingKeyMessage) := by
  refine ⟨fun env => rfl, ?_, ?_⟩
  · apply init_keyFalsyEq
    case hk =>
      cases file with
      | none => exact Or.inr ⟨rfl, rfl⟩
      | some ls =>
        exact (foldl_keyFalsyEq ls
          (Config.mk (some "") (mo.getD defaultModel) cerebrasBaseUrl)
          (Config.mk none (mo.getD defaultModel) cerebrasBaseUrl)
          (Or.inr ⟨rfl, rfl⟩) rfl rfl).1
    case hm =>
      cases file with
      | none => rfl
      | some ls =>
        exact (foldl_keyFalsyEq ls
          (Config.mk (some "") (mo.getD defaultModel) cerebrasBaseUrl)
          (Config.mk none (mo.getD defaultModel) cerebrasBaseUrl)
          (Or.inr ⟨rfl, rfl⟩) rfl rfl).2.1
    case hb =>
      cases file with
      | none => rfl
      | some ls =>
        exact (foldl_keyFalsyEq ls
          (Config.mk (some "") (mo.getD defaultModel) cerebrasBaseUrl)
          (Config.mk none (mo.getD defaultModel) cerebrasBaseUrl)
          (Or.inr ⟨rfl, rfl⟩) rfl rfl).2.2
  · intro ha henv hlines
    apply init_of_falsy
    have hfalsy : pyTruthy (get_config ⟨envK, mo⟩ (some lines)).api_key = false := by
      show pyTruthy (lines.foldl applyConfigLine
          (Config.mk envK (mo.getD defaultModel) cerebrasBaseUrl)).api_key = false
      apply foldl_falsy lines _ hlines
      rcases henv with h | h <;> subst h <;> rfl
    rw [show pyOrOpt a (get_config ⟨envK, mo⟩ (some lines)).api_key
          = (get_config ⟨envK, mo⟩ (some lines)).api_key from by simp [pyOrOpt, ha]]
    exact hfalsy

/-- Witness for `empty_key_treated_absent`: empty explicit key, empty
environment key, and a config file whose only `cerebras_api_key` entry has
an empty value. -/
theorem empty_key_treated_absent_witness :
    (CerebrasClient.init (some ("")) none ⟨none, none⟩ none
        = CerebrasClient.init none none ⟨none, none⟩ none)
    ∧ (CerebrasClient.init (some ("")) none ⟨some (""), none⟩ none
        = CerebrasClient.init (some ("")) none ⟨none, none⟩ none)
    ∧ CerebrasClient.init (some ("")) none ⟨some (""), none⟩
        (some ["cerebras_api_key=\"\""]) = Except.error missingKeyMessage := by
  have h := empty_key_treated_absent (some ("")) none none none
    ["cerebras_api_key=\"\""] (some (""))
  refine ⟨h.1 ⟨none, none⟩, h.2.1, h.2.2 rfl (Or.inr rfl) ?_⟩
  intro l hl v hv
  rw [List.mem_singleton] at hl
  subst hl
  have hp : parseConfigLine ("cerebras_api_key=\"\"")
      = some (("cerebras_api_key"), ("")) := rfl
  rw [hp] at hv
  injection hv with h2
  exact (congrArg Prod.snd h2).symm
